import Mathlib

/-!
Verification of the EquilibriumLife mood-tracking bot against its design
specification.

The Python sources are shallowly embedded: each handler or client method
becomes a pure Lean function over an explicit environment that records the
outcome of every external call (DynamoDB, OpenAI, Telegram, clocks), and the
observable effects (messages sent, records written, requests issued) are
returned as data.  Optional Python arguments are modelled with `Option`,
Python truthiness tests with explicit truthiness functions, and Python
exceptions with `Except` or explicit outcome fields.
-/

set_option maxRecDepth 10000
set_option linter.unusedVariables false

/-- Value of a Python expression as it ends up in a DynamoDB item attribute.
The dynamic type is kept because DynamoDB distinguishes string (S) attributes
from number (N) attributes exactly as Python distinguishes `str` from `int`. -/
inductive PyVal where
  | str (s : String)
  | int (n : Int)
deriving DecidableEq, Repr

/-- Python `str()` of a `PyVal`, as used by f-string interpolation. -/
def pyStr : PyVal → String
  | .str s => s
  | .int n => toString n

/-- Whether a `PyVal` is a Python `int`. -/
def PyVal.isIntVal : PyVal → Bool
  | .str _ => false
  | .int _ => true

/-- Truthiness of an `Optional[str]` Python argument: `None` and the empty
string are falsy, every other string is truthy. -/
def strTruthy : Option String → Bool
  | none => false
  | some s => !s.isEmpty

/-- Truthiness of an `Optional[int]` Python argument: `None` and `0` are
falsy. -/
def natTruthy : Option Nat → Bool
  | none => false
  | some n => n != 0

/-- Truthiness of an `Optional[Dict]` Python argument: `None` and the empty
dict are falsy. -/
def dictTruthy : Option (List (String × PyVal)) → Bool
  | none => false
  | some l => !l.isEmpty

/-- Index of the first item of the page that starts after the exclusive start
key.  `none` models the empty dict `{}` (no `ExclusiveStartKey` sent); `some k`
models the key of item `k`, so the page starts at `k + 1`.  (The real cursor is
an opaque key dict; a nonempty dict is always truthy, which is why `some 0` is
truthy here.) -/
def eskStart : Option Nat → Nat
  | none => 0
  | some k => k + 1

/-- Items of one DynamoDB page: the backing result set `data` holds, in store
order, every item matching the request, and a page returns up to `Limit` of
them starting after the exclusive start key (all of them when no `Limit` is
sent). -/
def pageItems {α : Type} (data : List α) (esk : Option Nat) (lim : Option Nat) : List α :=
  match lim with
  | none => data.drop (eskStart esk)
  | some l => (data.drop (eskStart esk)).take l

/-- `LastEvaluatedKey` of one DynamoDB page: present exactly when the page is
nonempty and stops before the end of the result set, and then it is the key of
the last item returned.  (DynamoDB rejects `Limit = 0`, and the client under
verification never sends it, so that case is irrelevant; the model returns no
cursor there so that it stays total.) -/
def pageLek {α : Type} (data : List α) (esk : Option Nat) (lim : Option Nat) : Option Nat :=
  if (pageItems data esk lim).length ≠ 0 ∧
      eskStart esk + (pageItems data esk lim).length < data.length then
    some (eskStart esk + (pageItems data esk lim).length - 1)
  else
    none

/-- One page response of the managed store: `Items` and `LastEvaluatedKey`. -/
def storePage {α : Type} (data : List α) (esk : Option Nat) (lim : Option Nat) :
    List α × Option Nat :=
  (pageItems data esk lim, pageLek data esk lim)

namespace AsyncDynamoDBClient

/-- Parameters of `AsyncDynamoDBClient.query` (src/aws_resources/dynamodb.py,
lines 19-27), with the same defaults as the Python signature. -/
structure QueryParams where
  key_condition_expression : String
  expression_attribute_values : List (String × PyVal)
  index_name : Option String := none
  filter_expression : Option String := none
  limit : Option Nat := none
  scan_index_forward : Bool := true
deriving DecidableEq, Repr

/-- The `query_args` dict passed to `table.query`; a field holding `none`
models the key being absent from the dict. -/
structure QueryArgs where
  KeyConditionExpression : String
  ExpressionAttributeValues : List (String × PyVal)
  ScanIndexForward : Bool
  ExclusiveStartKey : Option Nat := none
  IndexName : Option String := none
  FilterExpression : Option String := none
  Limit : Option Nat := none
deriving DecidableEq, Repr

/-- Construction of `query_args` (dynamodb.py lines 33-46): the three required
keys are always present, and each optional key is added only when the Python
value is truthy (`if exclusive_start_key:`, `if index_name:`,
`if filter_expression:`, `if limit:`). -/
def buildQueryArgs (p : QueryParams) (exclusive_start_key : Option Nat) : QueryArgs :=
  { KeyConditionExpression := p.key_condition_expression
    ExpressionAttributeValues := p.expression_attribute_values
    ScanIndexForward := p.scan_index_forward
    ExclusiveStartKey := exclusive_start_key
    IndexName := if strTruthy p.index_name then p.index_name else none
    FilterExpression := if strTruthy p.filter_expression then p.filter_expression else none
    Limit := if natTruthy p.limit then p.limit else none }

/-- Parameters of `AsyncDynamoDBClient.scan` (dynamodb.py lines 56-63). -/
structure ScanParams where
  projection_expression : Option String := none
  filter_expression : Option String := none
  expression_attribute_values : Option (List (String × PyVal)) := none
  limit : Option Nat := none
  index_name : Option String := none
deriving DecidableEq, Repr

/-- The `scan_args` dict passed to `table.scan`; it starts empty and every key
is optional. -/
structure ScanArgs where
  ProjectionExpression : Option String := none
  FilterExpression : Option String := none
  ExpressionAttributeValues : Option (List (String × PyVal)) := none
  Limit : Option Nat := none
  IndexName : Option String := none
  ExclusiveStartKey : Option Nat := none
deriving DecidableEq, Repr

/-- Construction of `scan_args` (dynamodb.py lines 69-81): each key is added
only when the corresponding Python value is truthy. -/
def buildScanArgs (p : ScanParams) (exclusive_start_key : Option Nat) : ScanArgs :=
  { ProjectionExpression := if strTruthy p.projection_expression then p.projection_expression else none
    FilterExpression := if strTruthy p.filter_expression then p.filter_expression else none
    ExpressionAttributeValues :=
      if dictTruthy p.expression_attribute_values then p.expression_attribute_values else none
    Limit := if natTruthy p.limit then p.limit else none
    IndexName := if strTruthy p.index_name then p.index_name else none
    ExclusiveStartKey := exclusive_start_key }

/-- The `while True` pagination loop of `AsyncDynamoDBClient.query`
(dynamodb.py lines 32-54): build `query_args` for the current cursor, issue
the page request, yield its items, and repeat with the returned
`LastEvaluatedKey` until it is absent or empty.  The result is the list of
page requests issued, paired with the full sequence of yielded items. -/
def queryLoop {α : Type} (data : List α) (p : QueryParams) (esk : Option Nat) :
    List QueryArgs × List α :=
  let args := buildQueryArgs p esk
  match h : (storePage data args.ExclusiveStartKey args.Limit).2 with
  | none => ([args], (storePage data args.ExclusiveStartKey args.Limit).1)
  | some k =>
    let rest := queryLoop data p (some k)
    (args :: rest.1, (storePage data args.ExclusiveStartKey args.Limit).1 ++ rest.2)
termination_by data.length - eskStart esk
decreasing_by
  have hesk : (buildQueryArgs p esk).ExclusiveStartKey = esk := rfl
  rw [hesk] at h
  have hp : pageLek data esk (buildQueryArgs p esk).Limit = some k := h
  have hk : eskStart esk ≤ k ∧ k + 1 < data.length := by
    unfold pageLek at hp
    split at hp
    · rename_i hc
      injection hp with hkk
      omega
    · exact absurd hp (by simp)
  unfold eskStart at hk
  simp only [eskStart]
  omega

/-- `AsyncDynamoDBClient.query`: the lazy generator, fully consumed.  The
first component records every page request issued to the store, the second
the items yielded, in order. -/
def query {α : Type} (data : List α) (p : QueryParams) : List QueryArgs × List α :=
  queryLoop data p none

/-- The `while True` pagination loop of `AsyncDynamoDBClient.scan`
(dynamodb.py lines 68-89), identical in structure to the query loop. -/
def scanLoop {α : Type} (data : List α) (p : ScanParams) (esk : Option Nat) :
    List ScanArgs × List α :=
  let args := buildScanArgs p esk
  match h : (storePage data args.ExclusiveStartKey args.Limit).2 with
  | none => ([args], (storePage data args.ExclusiveStartKey args.Limit).1)
  | some k =>
    let rest := scanLoop data p (some k)
    (args :: rest.1, (storePage data args.ExclusiveStartKey args.Limit).1 ++ rest.2)
termination_by data.length - eskStart esk
decreasing_by
  have hesk : (buildScanArgs p esk).ExclusiveStartKey = esk := rfl
  rw [hesk] at h
  have hp : pageLek data esk (buildScanArgs p esk).Limit = some k := h
  have hk : eskStart esk ≤ k ∧ k + 1 < data.length := by
    unfold pageLek at hp
    split at hp
    · rename_i hc
      injection hp with hkk
      omega
    · exact absurd hp (by simp)
  unfold eskStart at hk
  simp only [eskStart]
  omega

/-- `AsyncDynamoDBClient.scan`: the lazy generator, fully consumed. -/
def scan {α : Type} (data : List α) (p : ScanParams) : List ScanArgs × List α :=
  scanLoop data p none

end AsyncDynamoDBClient

/-- Python errors that the inline sort-key parse of `generate_mood_chart`
(src/bot_handler/mood_history.py lines 66-70) can raise: `IndexError` from
indexing the result of `split` and `ValueError` from `float`. -/
inductive PyError where
  | indexError
  | valueError
deriving DecidableEq, Repr

/-- Helper for `pySplitHash`: accumulates the current segment (reversed). -/
def splitHashAux : List Char → List Char → List String
  | [], acc => [String.mk acc.reverse]
  | '#' :: rest, acc => String.mk acc.reverse :: splitHashAux rest []
  | c :: rest, acc => splitHashAux rest (c :: acc)

/-- Python split on the hash character: the result always has at least one
element, and a key with no hash yields a single segment. -/
def pySplitHash (s : String) : List String :=
  splitHashAux s.toList []

/-- Numeric value of a list of decimal digit characters. -/
def digitsVal (l : List Char) : Nat :=
  l.foldl (fun a c => a * 10 + (c.toNat - 48)) 0

/-- Python float conversion of a string, on the plain decimal literals this
code base produces and parses (optional sign, integer digits, optional
fractional part); `none` models `ValueError`.  Exotic float syntax
(exponents, inf, nan, underscores) is outside the fragment the bot ever
formats into a sort key. -/
def pyFloat (s : String) : Option ℚ :=
  let cs := s.toList
  let signRest : Bool × List Char :=
    match cs with
    | '-' :: r => (true, r)
    | '+' :: r => (false, r)
    | _ => (false, cs)
  let signed : Nat → Nat → ℚ := fun mant den =>
    if signRest.1 then mkRat (-(mant : Int)) den else mkRat mant den
  let ip := signRest.2.takeWhile Char.isDigit
  let rest := signRest.2.dropWhile Char.isDigit
  match rest with
  | [] =>
    if ip.isEmpty then none
    else some (signed (digitsVal ip) 1)
  | '.' :: fp =>
    if fp.all Char.isDigit && !(ip.isEmpty && fp.isEmpty) then
      some (signed (digitsVal ip * 10 ^ fp.length + digitsVal fp) (10 ^ fp.length))
    else none
  | _ => none

/-- The inline sort-key decoding of `generate_mood_chart`
(mood_history.py lines 66-70): split the key on the hash character, take
component 1, convert it with float().  A key with no second hash-separated
component raises `IndexError`; a second component that is not a number
raises `ValueError`.  The specification calls this operation
`parseTimestamp`. -/
def parseTimestamp (sk : String) : Except PyError ℚ :=
  match (pySplitHash sk)[1]? with
  | none => .error PyError.indexError
  | some t =>
    match pyFloat t with
    | none => .error PyError.valueError
    | some q => .ok q

/-- Zero-padded decimal rendering of `n` to `width` digits. -/
def decimalDigitsPad (n : Nat) (width : Nat) : String :=
  let s := toString n
  String.mk (List.replicate (width - s.length) '0') ++ s

/-- Python string rendering of a nonnegative float with a terminating decimal
expansion, as produced by f-string interpolation of a clock reading: the
integer part, a dot, and the fractional digits, with a whole number rendered
with a trailing zero (Python prints 352.0, not 352). -/
def pyFloatRepr (q : ℚ) : String :=
  let k := ((List.range 31).find? (fun j => 10 ^ j % q.den == 0)).getD 0
  let scaled := q.num.toNat * 10 ^ k / q.den
  if k = 0 then toString scaled ++ ".0"
  else toString (scaled / 10 ^ k) ++ "." ++ decimalDigitsPad (scaled % 10 ^ k) k

/-- The two clocks available to the process at the moment a record is built:
`wallClock` is the wall-clock time in seconds since the Unix epoch (what
Python `time.time()` returns), `loopTime` is the reading of
`asyncio.get_event_loop().time()` — a monotonic clock whose origin is
arbitrary (for example seconds since boot).  Both are floats, modelled as
exact rationals. -/
structure ClockEnv where
  wallClock : ℚ
  loopTime : ℚ
deriving DecidableEq, Repr

/-- The item dict written by `log_mood_to_dynamodb`
(src/bot_handler/webhook.py lines 174-182). -/
structure MoodItem where
  userId : String
  sk : String
  moodValue : PyVal
  notes : String
  type : String
deriving DecidableEq, Repr

/-- `log_mood_to_dynamodb` (webhook.py lines 168-182): builds the item that
`table.put_item` persists.  The sort key interpolates the reading of
`asyncio.get_event_loop().time()` — the event-loop clock, not the wall
clock — and `moodValue` stores whatever Python value the caller passed as
`mood`. -/
def log_mood_to_dynamodb (clock : ClockEnv) (user_id : Int) (mood : PyVal) (notes : String) :
    MoodItem :=
  { userId := "telegram_" ++ toString user_id
    sk := "mood#" ++ pyFloatRepr clock.loopTime
    moodValue := mood
    notes := notes
    type := "mood" }

/-- Outcomes of the external calls one pass through a webhook handler can
make: the DynamoDB put and the OpenAI completion request. -/
structure Env where
  clock : ClockEnv
  dbPut : Except String Unit
  tipApi : Except String String

/-- `get_ai_tip` (webhook.py lines 190-204): issues one completion request
and returns its text; any exception is caught inside the function and the
empty string is returned instead. -/
def get_ai_tip (env : Env) (mood : PyVal) : String :=
  match env.tipApi with
  | .ok content => content
  | .error _ => ""

/-- States of the mood-logging conversation.  `idle` covers both the absence
of a conversation and the END sentinel of the conversation handler. -/
inductive ConvState where
  | idle
  | ask_mood
  | ask_notes
deriving DecidableEq, Repr

/-- An inbound Telegram update relevant to the conversation handler: a text
message or an inline-button callback query. -/
inductive TgUpdate where
  | message (text : String)
  | callback (data : String)
deriving DecidableEq, Repr

/-- Observable outcome of dispatching one update: the next conversation
state, the per-user context storage (`context.user_data`, with only its
`mood` key modelled), the texts sent or edited (in order), the items written
to DynamoDB, the number of OpenAI requests issued, and whether an exception
escaped the handler. -/
structure StepResult where
  state : ConvState
  userData : Option PyVal
  replies : List String
  persisted : List MoodItem
  tipRequests : Nat
  raised : Bool
deriving DecidableEq, Repr

/-- Dispatch result when no registered handler matches the update: nothing
happens and the conversation state is unchanged. -/
def noStep (s : ConvState) (ud : Option PyVal) : StepResult :=
  { state := s, userData := ud, replies := [], persisted := [], tipRequests := 0
    raised := false }

/-- `log_mood_start` (webhook.py lines 58-77): sends the mood-selector
prompt and moves to `ASK_MOOD`. -/
def log_mood_start (ud : Option PyVal) : StepResult :=
  { state := .ask_mood, userData := ud
    replies := ["How are you feeling today?"]
    persisted := [], tipRequests := 0, raised := false }

/-- `mood_selected` (webhook.py lines 80-97): stores the callback data — a
Python string — under the context key `mood`, edits the message to the
notes prompt, and moves to `ASK_NOTES`. -/
def mood_selected (ud : Option PyVal) (data : String) : StepResult :=
  { state := .ask_notes, userData := some (PyVal.str data)
    replies := ["Selected mood: " ++ data ++
      "/5\nWant to add any notes? (e.g. \x27Great workout today!\x27)"]
    persisted := [], tipRequests := 0, raised := false }

/-- `save_notes` (webhook.py lines 100-130): reads the transient mood, writes
the item; on a store error it replies with a fixed failure text and ends the
conversation without requesting a tip; on success it requests a tip (failure
there yields the empty string), replies with the confirmation — appending
the tip line only when the tip is nonempty — then shows the main menu and
ends the conversation.  A missing `mood` key would raise `KeyError` out of
the handler. -/
def save_notes (env : Env) (ud : Option PyVal) (user_id : Int) (text : String) : StepResult :=
  match ud with
  | none =>
    { state := .ask_notes, userData := none, replies := [], persisted := []
      tipRequests := 0, raised := true }
  | some mood =>
    match env.dbPut with
    | .error _ =>
      { state := .idle, userData := ud
        replies := ["⚠️ Failed to save mood. Please try again."]
        persisted := [], tipRequests := 0, raised := false }
    | .ok _ =>
      let item := log_mood_to_dynamodb env.clock user_id mood text
      let tip := get_ai_tip env mood
      let response := "✅ Mood " ++ pyStr mood ++ " logged!"
      let response2 := if tip ≠ "" then response ++ "\n\n💡 AI Tip: " ++ tip else response
      { state := .idle, userData := ud
        replies := [response2, "What would you like to do next?"]
        persisted := [item], tipRequests := 1, raised := false }

/-- `skip_notes` (webhook.py lines 133-164): identical to `save_notes` with
empty notes, messages delivered through the edit-message operation. -/
def skip_notes (env : Env) (ud : Option PyVal) (user_id : Int) : StepResult :=
  match ud with
  | none =>
    { state := .ask_notes, userData := none, replies := [], persisted := []
      tipRequests := 0, raised := true }
  | some mood =>
    match env.dbPut with
    | .error _ =>
      { state := .idle, userData := ud
        replies := ["⚠️ Failed to save mood. Please try again."]
        persisted := [], tipRequests := 0, raised := false }
    | .ok _ =>
      let item := log_mood_to_dynamodb env.clock user_id mood ""
      let tip := get_ai_tip env mood
      let response := "✅ Mood " ++ pyStr mood ++ " logged!"
      let response2 := if tip ≠ "" then response ++ "\n\n💡 AI Tip: " ++ tip else response
      { state := .idle, userData := ud
        replies := [response2, "What would you like to do next?"]
        persisted := [item], tipRequests := 1, raised := false }

/-- `cancel` (webhook.py lines 185-187): replies with the cancellation
acknowledgment and ends the conversation.  It does not touch
`context.user_data`. -/
def cancel (ud : Option PyVal) : StepResult :=
  { state := .idle, userData := ud
    replies := ["Conversation canceled. Goodbye!"]
    persisted := [], tipRequests := 0, raised := false }

/-- A Telegram text message is a command when it starts with a slash. -/
def isCommand (t : String) : Bool :=
  t.front == '/'

/-- The callback pattern of the `ASK_MOOD` state (regex matching exactly one
digit from 1 to 5). -/
def isMoodChoice (d : String) : Bool :=
  d == "1" || d == "2" || d == "3" || d == "4" || d == "5"

/-- One dispatch step of the conversation handler registered in
`setup_handlers` (webhook.py lines 218-242): the entry point fires on the
log-mood menu message; `ASK_MOOD` handles digit callbacks; `ASK_NOTES`
handles non-command text (saving with notes) and the skip callback; the
cancel command is a fallback available in every in-conversation state.
Updates matching no handler leave the state unchanged. -/
def convHandlerStep (env : Env) (s : ConvState) (ud : Option PyVal) (user_id : Int)
    (u : TgUpdate) : StepResult :=
  match s, u with
  | .idle, .message t =>
    if t = "😊 Log Mood" then log_mood_start ud else noStep .idle ud
  | .idle, .callback _ => noStep .idle ud
  | .ask_mood, .callback d =>
    if isMoodChoice d then mood_selected ud d else noStep .ask_mood ud
  | .ask_mood, .message t =>
    if t = "/cancel" then cancel ud else noStep .ask_mood ud
  | .ask_notes, .message t =>
    if !isCommand t then save_notes env ud user_id t
    else if t = "/cancel" then cancel ud
    else noStep .ask_notes ud
  | .ask_notes, .callback d =>
    if d = "skip_notes" then skip_notes env ud user_id else noStep .ask_notes ud

/-- Outcomes of the external calls of one reminder-job invocation
(src/bot_handler/reminders.py): the records yielded by the table scan before
it possibly raises, whether it raises after them, and the per-user outcome
of a reminder send.  `sendOk` is false exactly when the send attempt fails —
by a malformed user id (`ValueError` or `IndexError` while extracting the
numeric id) or a `TelegramError` from the transport — all of which
`send_reminder` catches. -/
structure ReminderEnv where
  scanItems : List String
  scanFails : Bool
  sendOk : String → Bool

/-- `get_users_with_reminders_enabled` (reminders.py lines 20-37): folds the
scanned userId attributes into a set; the surrounding `try` swallows a scan
failure and returns the ids collected so far, so the result is the same
deduplicated list whether or not the scan raised at the end. -/
def get_users_with_reminders_enabled (env : ReminderEnv) : List String :=
  let user_ids := env.scanItems.foldl (fun acc u => if u ∈ acc then acc else acc ++ [u]) []
  if env.scanFails then user_ids else user_ids

/-- `send_reminder` (reminders.py lines 40-57): returns whether the send to
this user succeeded; every failure mode is caught inside and becomes
`false`. -/
def send_reminder (env : ReminderEnv) (user_id : String) : Bool :=
  env.sendOk user_id

/-- The HTTP-like status and body pair a Lambda handler returns. -/
structure LambdaResponse where
  statusCode : Nat
  body : String
deriving DecidableEq, Repr

/-- `async_lambda_handler` (reminders.py lines 60-83): collect the users; if
none, report success with no sends; otherwise dispatch one send per user
(all of them, regardless of individual outcomes), count the successes and
report them.  The second component records to whom a send was dispatched.
No modelled path reaches the top-level `except` branch (which would return
status 500), because every inner failure is already caught. -/
def async_lambda_handler (env : ReminderEnv) : LambdaResponse × List String :=
  let users := get_users_with_reminders_enabled env
  if users.isEmpty then
    ({ statusCode := 200, body := "No users found" }, [])
  else
    let results := users.map (send_reminder env)
    let success_count := results.count true
    ({ statusCode := 200, body := "Sent " ++ toString success_count ++ " reminders" }, users)

/-! Concrete instances used by witnesses and counterexamples. -/

/-- Concrete clock readings: the wall clock sits at a realistic epoch second
while the event-loop clock reads process uptime. -/
def clockUptime : ClockEnv := { wallClock := 1700000000, loopTime := mkRat 705 2 }

/-- Clock with a whole-second event-loop reading. -/
def clockWhole : ClockEnv := { wallClock := 1700000100, loopTime := 353 }

/-- Environment in which the store write fails. -/
def envDbFail : Env :=
  { clock := clockWhole, dbPut := .error "ServiceUnavailable", tipApi := .ok "Drink water." }

/-- Environment in which the store write succeeds and the tip request
fails. -/
def envTipFail : Env :=
  { clock := clockWhole, dbPut := .ok (), tipApi := .error "RateLimitError" }

/-- Environment in which both external calls succeed. -/
def envAllOk : Env :=
  { clock := clockWhole, dbPut := .ok (), tipApi := .ok "Take a short walk." }

/-- Query parameters with page size 2, as in the pagination test of the
specification. -/
def qpPage2 : AsyncDynamoDBClient.QueryParams :=
  { key_condition_expression := "userId = :uid"
    expression_attribute_values := [(":uid", PyVal.str "telegram_7")]
    limit := some 2
    scan_index_forward := false }

/-- Scan parameters with page size 2. -/
def spPage2 : AsyncDynamoDBClient.ScanParams :=
  { projection_expression := some "userId"
    filter_expression := some "begins_with(sk, :p)"
    expression_attribute_values := some [(":p", PyVal.str "mood#")]
    limit := some 2 }

/-- Five-item backing data set for the pagination witnesses. -/
def fiveItems : List Nat := [10, 20, 30, 40, 50]

/-- Reminder environment over three users where exactly the middle one
fails; the raw scan yields a duplicate to exercise deduplication. -/
def remEnvABC : ReminderEnv :=
  { scanItems := ["telegram_101", "telegram_202", "telegram_101", "telegram_303"]
    scanFails := false
    sendOk := fun u => u != "telegram_202" }

/-- Reminder environment whose scan raises before yielding anything. -/
def remEnvScanBoom : ReminderEnv :=
  { scanItems := [], scanFails := true, sendOk := fun _ => true }

/-! ## Theorems -/

namespace AsyncDynamoDBClient

theorem buildQueryArgs_ESK (p : QueryParams) (esk : Option Nat) :
    (buildQueryArgs p esk).ExclusiveStartKey = esk := rfl

theorem buildQueryArgs_Limit (p : QueryParams) (esk : Option Nat) :
    (buildQueryArgs p esk).Limit = (if natTruthy p.limit then p.limit else none) := rfl

theorem buildScanArgs_ESK (p : ScanParams) (esk : Option Nat) :
    (buildScanArgs p esk).ExclusiveStartKey = esk := rfl

theorem buildScanArgs_Limit (p : ScanParams) (esk : Option Nat) :
    (buildScanArgs p esk).Limit = (if natTruthy p.limit then p.limit else none) := rfl

/-- A returned cursor always lies strictly between the current page start and
the end of the backing result set. -/
theorem pageLek_some {α : Type} (data : List α) (esk lim : Option Nat) (k : Nat)
    (h : pageLek data esk lim = some k) : eskStart esk ≤ k ∧ k + 1 < data.length := by
  unfold pageLek at h
  split at h
  · rename_i hc
    obtain ⟨h1, h2⟩ := hc
    injection h with hk
    omega
  · exact absurd h (by simp)

theorem buildQueryArgs_Limit_ne_zero (p : QueryParams) (esk : Option Nat) :
    (buildQueryArgs p esk).Limit ≠ some 0 := by
  rw [buildQueryArgs_Limit]
  cases hp : p.limit with
  | none => simp [natTruthy]
  | some n =>
    by_cases hn : n = 0 <;> simp [natTruthy, hn]

theorem buildScanArgs_Limit_ne_zero (p : ScanParams) (esk : Option Nat) :
    (buildScanArgs p esk).Limit ≠ some 0 := by
  rw [buildScanArgs_Limit]
  cases hp : p.limit with
  | none => simp [natTruthy]
  | some n =>
    by_cases hn : n = 0 <;> simp [natTruthy, hn]

theorem pageItems_drop_all {α : Type} (data : List α) (esk : Option Nat) (lim : Option Nat)
    (h : data.length ≤ eskStart esk) : pageItems data esk lim = [] := by
  have hdrop : data.drop (eskStart esk) = [] := List.drop_eq_nil_of_le h
  unfold pageItems
  cases lim <;> simp [hdrop]

theorem queryLoop_eq_none {α : Type} (data : List α) (p : QueryParams) (esk : Option Nat)
    (h : pageLek data esk (buildQueryArgs p esk).Limit = none) :
    queryLoop data p esk =
      ([buildQueryArgs p esk], pageItems data esk (buildQueryArgs p esk).Limit) := by
  unfold queryLoop
  simp only [buildQueryArgs_ESK, storePage] at h ⊢
  rw [h]

theorem queryLoop_eq_some {α : Type} (data : List α) (p : QueryParams) (esk : Option Nat)
    (k : Nat) (h : pageLek data esk (buildQueryArgs p esk).Limit = some k) :
    queryLoop data p esk =
      (buildQueryArgs p esk :: (queryLoop data p (some k)).1,
        pageItems data esk (buildQueryArgs p esk).Limit ++ (queryLoop data p (some k)).2) := by
  conv_lhs => unfold queryLoop
  simp only [buildQueryArgs_ESK, storePage]
  rw [h]

theorem scanLoop_eq_none {α : Type} (data : List α) (p : ScanParams) (esk : Option Nat)
    (h : pageLek data esk (buildScanArgs p esk).Limit = none) :
    scanLoop data p esk =
      ([buildScanArgs p esk], pageItems data esk (buildScanArgs p esk).Limit) := by
  unfold scanLoop
  simp only [buildScanArgs_ESK, storePage] at h ⊢
  rw [h]

theorem scanLoop_eq_some {α : Type} (data : List α) (p : ScanParams) (esk : Option Nat)
    (k : Nat) (h : pageLek data esk (buildScanArgs p esk).Limit = some k) :
    scanLoop data p esk =
      (buildScanArgs p esk :: (scanLoop data p (some k)).1,
        pageItems data esk (buildScanArgs p esk).Limit ++ (scanLoop data p (some k)).2) := by
  conv_lhs => unfold scanLoop
  simp only [buildScanArgs_ESK, storePage]
  rw [h]

/-- The query generator yields exactly the tail of the backing result set
that starts at the current cursor position: paging always continues to the
end, whatever limit was supplied. -/
theorem queryLoop_items_aux {α : Type} (data : List α) (p : QueryParams) :
    ∀ (n : Nat) (esk : Option Nat), data.length - eskStart esk ≤ n →
      (queryLoop data p esk).2 = data.drop (eskStart esk) := by
  intro n
  induction n with
  | zero =>
    intro esk hn
    have hend : data.length ≤ eskStart esk := by omega
    have hitems : pageItems data esk (buildQueryArgs p esk).Limit = [] :=
      pageItems_drop_all data esk _ hend
    have hlek : pageLek data esk (buildQueryArgs p esk).Limit = none := by
      unfold pageLek
      simp [hitems]
    rw [queryLoop_eq_none data p esk hlek, hitems,
      (List.drop_eq_nil_of_le hend).symm]
  | succ n ih =>
    intro esk hn
    cases hlek : pageLek data esk (buildQueryArgs p esk).Limit with
    | none =>
      rw [queryLoop_eq_none data p esk hlek]
      unfold pageLek at hlek
      split at hlek
      · exact absurd hlek (by simp)
      · rename_i hc
        push_neg at hc
        cases hL : (buildQueryArgs p esk).Limit with
        | none => rfl
        | some l =>
          rw [hL] at hc
          have hl0 : l ≠ 0 := by
            intro h0
            exact buildQueryArgs_Limit_ne_zero p esk (h0 ▸ hL)
          unfold pageItems at hc ⊢
          simp only [List.length_take, List.length_drop] at hc
          by_cases hrem : data.length ≤ eskStart esk
          · rw [List.drop_eq_nil_of_le hrem]
            simp
          · apply List.take_of_length_le
            rw [List.length_drop]
            omega
    | some k =>
      have hk := pageLek_some data esk _ k hlek
      rw [queryLoop_eq_some data p esk k hlek]
      have hrec : (queryLoop data p (some k)).2 = data.drop (eskStart (some k)) := by
        apply ih
        simp only [eskStart]
        omega
      rw [hrec]
      unfold pageLek at hlek
      split at hlek
      · rename_i hc
        obtain ⟨hne, hlt⟩ := hc
        injection hlek with hkk
        cases hL : (buildQueryArgs p esk).Limit with
        | none =>
          rw [hL] at hne hlt
          unfold pageItems at hne hlt
          simp only [List.length_drop] at hne hlt
          omega
        | some l =>
          rw [hL] at hne hlt hkk
          unfold pageItems at hne hlt hkk ⊢
          simp only [List.length_take, List.length_drop] at hne hlt hkk
          have hlen : min l (data.length - eskStart esk) = l := by omega
          have hk1 : eskStart (some k) = eskStart esk + l := by
            show k + 1 = eskStart esk + l
            omega
          rw [hk1, ← List.drop_drop, List.take_append_drop]
      · exact absurd hlek (by simp)

/-- The scan generator yields exactly the tail of the backing result set
starting at the current cursor position. -/
theorem scanLoop_items_aux {α : Type} (data : List α) (p : ScanParams) :
    ∀ (n : Nat) (esk : Option Nat), data.length - eskStart esk ≤ n →
      (scanLoop data p esk).2 = data.drop (eskStart esk) := by
  intro n
  induction n with
  | zero =>
    intro esk hn
    have hend : data.length ≤ eskStart esk := by omega
    have hitems : pageItems data esk (buildScanArgs p esk).Limit = [] :=
      pageItems_drop_all data esk _ hend
    have hlek : pageLek data esk (buildScanArgs p esk).Limit = none := by
      unfold pageLek
      simp [hitems]
    rw [scanLoop_eq_none data p esk hlek, hitems,
      (List.drop_eq_nil_of_le hend).symm]
  | succ n ih =>
    intro esk hn
    cases hlek : pageLek data esk (buildScanArgs p esk).Limit with
    | none =>
      rw [scanLoop_eq_none data p esk hlek]
      unfold pageLek at hlek
      split at hlek
      · exact absurd hlek (by simp)
      · rename_i hc
        push_neg at hc
        cases hL : (buildScanArgs p esk).Limit with
        | none => rfl
        | some l =>
          rw [hL] at hc
          have hl0 : l ≠ 0 := by
            intro h0
            exact buildScanArgs_Limit_ne_zero p esk (h0 ▸ hL)
          unfold pageItems at hc ⊢
          simp only [List.length_take, List.length_drop] at hc
          by_cases hrem : data.length ≤ eskStart esk
          · rw [List.drop_eq_nil_of_le hrem]
            simp
          · apply List.take_of_length_le
            rw [List.length_drop]
            omega
    | some k =>
      have hk := pageLek_some data esk _ k hlek
      rw [scanLoop_eq_some data p esk k hlek]
      have hrec : (scanLoop data p (some k)).2 = data.drop (eskStart (some k)) := by
        apply ih
        simp only [eskStart]
        omega
      rw [hrec]
      unfold pageLek at hlek
      split at hlek
      · rename_i hc
        obtain ⟨hne, hlt⟩ := hc
        injection hlek with hkk
        cases hL : (buildScanArgs p esk).Limit with
        | none =>
          rw [hL] at hne hlt
          unfold pageItems at hne hlt
          simp only [List.length_drop] at hne hlt
          omega
        | some l =>
          rw [hL] at hne hlt hkk
          unfold pageItems at hne hlt hkk ⊢
          simp only [List.length_take, List.length_drop] at hne hlt hkk
          have hlen : min l (data.length - eskStart esk) = l := by omega
          have hk1 : eskStart (some k) = eskStart esk + l := by
            show k + 1 = eskStart esk + l
            omega
          rw [hk1, ← List.drop_drop, List.take_append_drop]
      · exact absurd hlek (by simp)

/-- A fully consumed query yields the whole backing result set. -/
theorem query_items {α : Type} (data : List α) (p : QueryParams) :
    (query data p).2 = data := by
  have h := queryLoop_items_aux data p data.length none (by simp [eskStart])
  simpa [query, eskStart] using h

/-- A fully consumed scan yields the whole backing result set. -/
theorem scan_items {α : Type} (data : List α) (p : ScanParams) :
    (scan data p).2 = data := by
  have h := scanLoop_items_aux data p data.length none (by simp [eskStart])
  simpa [scan, eskStart] using h

end AsyncDynamoDBClient

namespace AsyncDynamoDBClient

/-- A page requested with a limit never returns more than that many items. -/
theorem pageItems_length_le {α : Type} (data : List α) (esk : Option Nat) (l : Nat) :
    (pageItems data esk (some l)).length ≤ l := by
  simp only [pageItems, List.length_take, List.length_drop]
  omega

/-- Every page request issued by the query loop carries the limit field that
the argument building computed from the caller-supplied limit. -/
theorem queryLoop_trace_limit_aux {α : Type} (data : List α) (p : QueryParams) :
    ∀ (n : Nat) (esk : Option Nat), data.length - eskStart esk ≤ n →
      ∀ a ∈ (queryLoop data p esk).1,
        a.Limit = (if natTruthy p.limit then p.limit else none) := by
  intro n
  induction n with
  | zero =>
    intro esk hn a ha
    have hend : data.length ≤ eskStart esk := by omega
    have hitems : pageItems data esk (buildQueryArgs p esk).Limit = [] :=
      pageItems_drop_all data esk _ hend
    have hlek : pageLek data esk (buildQueryArgs p esk).Limit = none := by
      unfold pageLek
      simp [hitems]
    rw [queryLoop_eq_none data p esk hlek] at ha
    rw [List.mem_singleton.mp ha]
    exact buildQueryArgs_Limit p esk
  | succ n ih =>
    intro esk hn a ha
    cases hlek : pageLek data esk (buildQueryArgs p esk).Limit with
    | none =>
      rw [queryLoop_eq_none data p esk hlek] at ha
      rw [List.mem_singleton.mp ha]
      exact buildQueryArgs_Limit p esk
    | some k =>
      have hk := pageLek_some data esk _ k hlek
      rw [queryLoop_eq_some data p esk k hlek] at ha
      rcases List.mem_cons.mp ha with ha | ha
      · rw [ha]
        exact buildQueryArgs_Limit p esk
      · refine ih (some k) ?_ a ha
        simp only [eskStart]
        omega

/-- Every page request issued by the scan loop carries the limit field that
the argument building computed from the caller-supplied limit. -/
theorem scanLoop_trace_limit_aux {α : Type} (data : List α) (p : ScanParams) :
    ∀ (n : Nat) (esk : Option Nat), data.length - eskStart esk ≤ n →
      ∀ a ∈ (scanLoop data p esk).1,
        a.Limit = (if natTruthy p.limit then p.limit else none) := by
  intro n
  induction n with
  | zero =>
    intro esk hn a ha
    have hend : data.length ≤ eskStart esk := by omega
    have hitems : pageItems data esk (buildScanArgs p esk).Limit = [] :=
      pageItems_drop_all data esk _ hend
    have hlek : pageLek data esk (buildScanArgs p esk).Limit = none := by
      unfold pageLek
      simp [hitems]
    rw [scanLoop_eq_none data p esk hlek] at ha
    rw [List.mem_singleton.mp ha]
    exact buildScanArgs_Limit p esk
  | succ n ih =>
    intro esk hn a ha
    cases hlek : pageLek data esk (buildScanArgs p esk).Limit with
    | none =>
      rw [scanLoop_eq_none data p esk hlek] at ha
      rw [List.mem_singleton.mp ha]
      exact buildScanArgs_Limit p esk
    | some k =>
      have hk := pageLek_some data esk _ k hlek
      rw [scanLoop_eq_some data p esk k hlek] at ha
      rcases List.mem_cons.mp ha with ha | ha
      · rw [ha]
        exact buildScanArgs_Limit p esk
      · refine ih (some k) ?_ a ha
        simp only [eskStart]
        omega

/-- Two query parameter sets that build the same page requests drive the
pagination loop identically. -/
theorem queryLoop_congr_aux {α : Type} (data : List α) (p q : QueryParams)
    (hb : ∀ e, buildQueryArgs p e = buildQueryArgs q e) :
    ∀ (n : Nat) (esk : Option Nat), data.length - eskStart esk ≤ n →
      queryLoop data p esk = queryLoop data q esk := by
  intro n
  induction n with
  | zero =>
    intro esk hn
    have hend : data.length ≤ eskStart esk := by omega
    have hitems : pageItems data esk (buildQueryArgs p esk).Limit = [] :=
      pageItems_drop_all data esk _ hend
    have hlek : pageLek data esk (buildQueryArgs p esk).Limit = none := by
      unfold pageLek
      simp [hitems]
    have hlek2 : pageLek data esk (buildQueryArgs q esk).Limit = none := by
      rw [← hb esk]
      exact hlek
    rw [queryLoop_eq_none data p esk hlek, queryLoop_eq_none data q esk hlek2, hb esk]
  | succ n ih =>
    intro esk hn
    cases hlek : pageLek data esk (buildQueryArgs p esk).Limit with
    | none =>
      have hlek2 : pageLek data esk (buildQueryArgs q esk).Limit = none := by
        rw [← hb esk]
        exact hlek
      rw [queryLoop_eq_none data p esk hlek, queryLoop_eq_none data q esk hlek2, hb esk]
    | some k =>
      have hk := pageLek_some data esk _ k hlek
      have hlek2 : pageLek data esk (buildQueryArgs q esk).Limit = some k := by
        rw [← hb esk]
        exact hlek
      rw [queryLoop_eq_some data p esk k hlek, queryLoop_eq_some data q esk k hlek2, hb esk,
        ih (some k) (by simp only [eskStart]; omega)]

/-- Two scan parameter sets that build the same page requests drive the
pagination loop identically. -/
theorem scanLoop_congr_aux {α : Type} (data : List α) (p q : ScanParams)
    (hb : ∀ e, buildScanArgs p e = buildScanArgs q e) :
    ∀ (n : Nat) (esk : Option Nat), data.length - eskStart esk ≤ n →
      scanLoop data p esk = scanLoop data q esk := by
  intro n
  induction n with
  | zero =>
    intro esk hn
    have hend : data.length ≤ eskStart esk := by omega
    have hitems : pageItems data esk (buildScanArgs p esk).Limit = [] :=
      pageItems_drop_all data esk _ hend
    have hlek : pageLek data esk (buildScanArgs p esk).Limit = none := by
      unfold pageLek
      simp [hitems]
    have hlek2 : pageLek data esk (buildScanArgs q esk).Limit = none := by
      rw [← hb esk]
      exact hlek
    rw [scanLoop_eq_none data p esk hlek, scanLoop_eq_none data q esk hlek2, hb esk]
  | succ n ih =>
    intro esk hn
    cases hlek : pageLek data esk (buildScanArgs p esk).Limit with
    | none =>
      have hlek2 : pageLek data esk (buildScanArgs q esk).Limit = none := by
        rw [← hb esk]
        exact hlek
      rw [scanLoop_eq_none data p esk hlek, scanLoop_eq_none data q esk hlek2, hb esk]
    | some k =>
      have hk := pageLek_some data esk _ k hlek
      have hlek2 : pageLek data esk (buildScanArgs q esk).Limit = some k := by
        rw [← hb esk]
        exact hlek
      rw [scanLoop_eq_some data p esk k hlek, scanLoop_eq_some data q esk k hlek2, hb esk,
        ih (some k) (by simp only [eskStart]; omega)]

/-- Every page request of a full query carries the computed limit field. -/
theorem query_trace_limit {α : Type} (data : List α) (p : QueryParams) :
    ∀ a ∈ (query data p).1, a.Limit = (if natTruthy p.limit then p.limit else none) :=
  queryLoop_trace_limit_aux data p data.length none (by simp [eskStart])

/-- Every page request of a full scan carries the computed limit field. -/
theorem scan_trace_limit {α : Type} (data : List α) (p : ScanParams) :
    ∀ a ∈ (scan data p).1, a.Limit = (if natTruthy p.limit then p.limit else none) :=
  scanLoop_trace_limit_aux data p data.length none (by simp [eskStart])

/-- Query parameter sets building the same page requests yield identical
traces and items. -/
theorem query_congr {α : Type} (data : List α) (p q : QueryParams)
    (hb : ∀ e, buildQueryArgs p e = buildQueryArgs q e) :
    query data p = query data q :=
  queryLoop_congr_aux data p q hb data.length none (by simp [eskStart])

/-- Scan parameter sets building the same page requests yield identical
traces and items. -/
theorem scan_congr {α : Type} (data : List α) (p q : ScanParams)
    (hb : ∀ e, buildScanArgs p e = buildScanArgs q e) :
    scan data p = scan data q :=
  scanLoop_congr_aux data p q hb data.length none (by simp [eskStart])

end AsyncDynamoDBClient

/-- Summing a list of booleans counts the true entries. -/
theorem count_true_map {β : Type} (f : β → Bool) (l : List β) :
    (l.map f).count true = l.countP f := by
  induction l with
  | nil => rfl
  | cons x xs ih =>
    cases hfx : f x <;> simp [List.count_cons, List.countP_cons, hfx, ih]

/-! ## Claims -/

/-- C1: for every backing data set and every positive limit L passed to the
paginated store client (query and scan), the generator keeps issuing page
requests until the store returns no continuation cursor, so the yielded items
are exactly the full result set — which can exceed L — while L only bounds
the Limit sent with each page request and hence each page size. -/
theorem C1_limit_bounds_page_size_not_total_yield {α : Type} (data : List α) (L : Nat)
    (qp : AsyncDynamoDBClient.QueryParams) (sp : AsyncDynamoDBClient.ScanParams)
    (hL : 0 < L) (hq : qp.limit = some L) (hs : sp.limit = some L) :
    (AsyncDynamoDBClient.query data qp).2 = data ∧
    (∀ a ∈ (AsyncDynamoDBClient.query data qp).1, a.Limit = some L ∧
      (storePage data a.ExclusiveStartKey a.Limit).1.length ≤ L) ∧
    (AsyncDynamoDBClient.scan data sp).2 = data ∧
    (∀ a ∈ (AsyncDynamoDBClient.scan data sp).1, a.Limit = some L ∧
      (storePage data a.ExclusiveStartKey a.Limit).1.length ≤ L) := by
  have hqt : natTruthy qp.limit = true := by
    rw [hq]
    simp [natTruthy]
    omega
  have hst : natTruthy sp.limit = true := by
    rw [hs]
    simp [natTruthy]
    omega
  refine ⟨AsyncDynamoDBClient.query_items data qp, ?_, AsyncDynamoDBClient.scan_items data sp, ?_⟩
  · intro a ha
    have hl := AsyncDynamoDBClient.query_trace_limit data qp a ha
    rw [hqt, if_pos rfl, hq] at hl
    refine ⟨hl, ?_⟩
    rw [hl]
    exact AsyncDynamoDBClient.pageItems_length_le data a.ExclusiveStartKey L
  · intro a ha
    have hl := AsyncDynamoDBClient.scan_trace_limit data sp a ha
    rw [hst, if_pos rfl, hs] at hl
    refine ⟨hl, ?_⟩
    rw [hl]
    exact AsyncDynamoDBClient.pageItems_length_le data a.ExclusiveStartKey L

theorem C1_witness :
    0 < 2 ∧ qpPage2.limit = some 2 ∧ spPage2.limit = some 2 ∧
    ((AsyncDynamoDBClient.query fiveItems qpPage2).2 = fiveItems ∧
      (∀ a ∈ (AsyncDynamoDBClient.query fiveItems qpPage2).1, a.Limit = some 2 ∧
        (storePage fiveItems a.ExclusiveStartKey a.Limit).1.length ≤ 2) ∧
      (AsyncDynamoDBClient.scan fiveItems spPage2).2 = fiveItems ∧
      (∀ a ∈ (AsyncDynamoDBClient.scan fiveItems spPage2).1, a.Limit = some 2 ∧
        (storePage fiveItems a.ExclusiveStartKey a.Limit).1.length ≤ 2)) :=
  ⟨by decide, rfl, rfl,
    C1_limit_bounds_page_size_not_total_yield fiveItems 2 qpPage2 spPage2 (by decide) rfl rfl⟩

/-- C2: the claim says the sort key encodes the current wall-clock time in
seconds since the Unix epoch; the code instead interpolates
`asyncio.get_event_loop().time()`, a monotonic clock with an arbitrary
origin.  With the wall clock at 1700000000 and the event-loop clock at 352.5
(typical process uptime), the persisted key is `mood#352.5`: it decodes to
the event-loop reading, not to the wall-clock creation time, and differs
from the key the wall clock would have produced. -/
theorem C2_sort_key_uses_event_loop_clock_not_wall_clock :
    (log_mood_to_dynamodb clockUptime 42 (PyVal.str "3") "note").sk = "mood#352.5" ∧
    parseTimestamp (log_mood_to_dynamodb clockUptime 42 (PyVal.str "3") "note").sk
      = .ok clockUptime.loopTime ∧
    (log_mood_to_dynamodb clockUptime 42 (PyVal.str "3") "note").sk
      ≠ "mood#" ++ pyFloatRepr clockUptime.wallClock ∧
    clockUptime.loopTime ≠ clockUptime.wallClock := by
  refine ⟨rfl, rfl, by decide, by decide⟩

/-- C3: the claim says every persisted moodValue is an integer in one to
five; the conversational boundary does restrict the value to the five digit
strings, but `mood = query.data` is a Python string, so the record is
persisted with the string "3" (a DynamoDB S attribute), not an integer —
contradicting the `mood: int` annotation of `log_mood_to_dynamodb`. -/
theorem C3_mood_value_persisted_as_string :
    (convHandlerStep envTipFail .ask_mood none 42 (.callback "3")).state = .ask_notes ∧
    (convHandlerStep envTipFail .ask_mood none 42 (.callback "3")).userData
      = some (PyVal.str "3") ∧
    (convHandlerStep envTipFail .ask_notes (some (PyVal.str "3")) 42
        (.callback "skip_notes")).persisted
      = [{ userId := "telegram_42", sk := "mood#353.0", moodValue := PyVal.str "3",
           notes := "", type := "mood" }] ∧
    ((convHandlerStep envTipFail .ask_notes (some (PyVal.str "3")) 42
        (.callback "skip_notes")).persisted.all fun item => !item.moodValue.isIntVal) = true :=
  ⟨rfl, rfl, rfl, rfl⟩

/-- C4 counterexample: the claim says any key not of the exact
`mood#<number>` shape fails; but the inline parse never checks the prefix,
so the non-mood key `bogus#42` parses successfully to 42. -/
theorem C4_counterexample :
    parseTimestamp "bogus#42" = .ok 42 ∧ (pySplitHash "bogus#42")[0]? = some "bogus" := by
  constructor
  · have h : parseTimestamp "bogus#42" = .ok (mkRat 42 1) := rfl
    have h2 : (mkRat 42 1 : ℚ) = 42 := by
      rw [Rat.mkRat_eq_div]
      norm_num
    rw [h, h2]
  · rfl

/-- C4 amended: a well-formed key decodes to its encoded timestamp; a key
with no second hash-separated component raises IndexError and one whose
second component is not a number raises ValueError (there is no unified
MalformedKey error); the mood prefix is not validated, so any
`<anything>#<number>` key parses successfully. -/
theorem C4_parse_timestamp_behaviour :
    parseTimestamp "mood#1700000000.5" = .ok (1700000000.5 : ℚ) ∧
    parseTimestamp "bogus" = .error PyError.indexError ∧
    parseTimestamp "mood#abc" = .error PyError.valueError ∧
    parseTimestamp "x#1" = .ok 1 := by
  refine ⟨?_, rfl, rfl, ?_⟩
  · have h : parseTimestamp "mood#1700000000.5" = .ok (mkRat 17000000005 10) := rfl
    have h2 : (mkRat 17000000005 10 : ℚ) = (1700000000.5 : ℚ) := by
      rw [Rat.mkRat_eq_div]
      norm_num
    rw [h, h2]
  · have h : parseTimestamp "x#1" = .ok (mkRat 1 1) := rfl
    have h2 : (mkRat 1 1 : ℚ) = 1 := by
      rw [Rat.mkRat_eq_div]
      norm_num
    rw [h, h2]

/-- C5: if the store write fails in `ASK_NOTES` — whether the user sent
free-text notes or pressed skip — no tip request is issued, the conversation
ends (returns to idle), nothing is persisted, the error is not re-raised,
and the user receives the fixed failure text, which is the same for every
store error and therefore never contains the store error. -/
theorem C5_store_failure_aborts_without_tip
    (env : Env) (e : String) (hdb : env.dbPut = .error e)
    (m : PyVal) (uid : Int) (text : String) (ht : isCommand text = false) :
    convHandlerStep env .ask_notes (some m) uid (.message text) =
      { state := .idle, userData := some m
        replies := ["⚠️ Failed to save mood. Please try again."]
        persisted := [], tipRequests := 0, raised := false } ∧
    convHandlerStep env .ask_notes (some m) uid (.callback "skip_notes") =
      { state := .idle, userData := some m
        replies := ["⚠️ Failed to save mood. Please try again."]
        persisted := [], tipRequests := 0, raised := false } := by
  constructor
  · simp [convHandlerStep, save_notes, ht, hdb]
  · simp [convHandlerStep, skip_notes, hdb]

theorem C5_witness :
    envDbFail.dbPut = .error "ServiceUnavailable" ∧ isCommand "felt great" = false ∧
    (convHandlerStep envDbFail .ask_notes (some (PyVal.str "4")) 7 (.message "felt great") =
      { state := .idle, userData := some (PyVal.str "4")
        replies := ["⚠️ Failed to save mood. Please try again."]
        persisted := [], tipRequests := 0, raised := false } ∧
    convHandlerStep envDbFail .ask_notes (some (PyVal.str "4")) 7 (.callback "skip_notes") =
      { state := .idle, userData := some (PyVal.str "4")
        replies := ["⚠️ Failed to save mood. Please try again."]
        persisted := [], tipRequests := 0, raised := false }) :=
  ⟨rfl, by decide,
    C5_store_failure_aborts_without_tip envDbFail "ServiceUnavailable" rfl
      (PyVal.str "4") 7 "felt great" (by decide)⟩

/-- C6: for every mood value, when the tip request fails after a successful
store write, `get_ai_tip` returns the empty string instead of raising, the
save is still treated as successful — the confirmation reply is sent (with
no tip line) followed by the main menu, the record is persisted, and the
conversation ends normally. -/
theorem C6_tip_failure_non_fatal
    (env : Env) (e : String) (hdb : env.dbPut = .ok ()) (htip : env.tipApi = .error e)
    (m : PyVal) (uid : Int) (text : String) (ht : isCommand text = false) :
    get_ai_tip env m = "" ∧
    convHandlerStep env .ask_notes (some m) uid (.message text) =
      { state := .idle, userData := some m
        replies := ["✅ Mood " ++ pyStr m ++ " logged!", "What would you like to do next?"]
        persisted := [log_mood_to_dynamodb env.clock uid m text]
        tipRequests := 1, raised := false } ∧
    convHandlerStep env .ask_notes (some m) uid (.callback "skip_notes") =
      { state := .idle, userData := some m
        replies := ["✅ Mood " ++ pyStr m ++ " logged!", "What would you like to do next?"]
        persisted := [log_mood_to_dynamodb env.clock uid m ""]
        tipRequests := 1, raised := false } := by
  have htip0 : get_ai_tip env m = "" := by
    simp [get_ai_tip, htip]
  refine ⟨htip0, ?_, ?_⟩
  · simp [convHandlerStep, save_notes, ht, hdb, htip0]
  · simp [convHandlerStep, skip_notes, hdb, htip0]

theorem C6_witness :
    envTipFail.dbPut = .ok () ∧ envTipFail.tipApi = .error "RateLimitError" ∧
    isCommand "slept well" = false ∧
    (get_ai_tip envTipFail (PyVal.str "5") = "" ∧
    convHandlerStep envTipFail .ask_notes (some (PyVal.str "5")) 7 (.message "slept well") =
      { state := .idle, userData := some (PyVal.str "5")
        replies := ["✅ Mood " ++ pyStr (PyVal.str "5") ++ " logged!",
          "What would you like to do next?"]
        persisted := [log_mood_to_dynamodb envTipFail.clock 7 (PyVal.str "5") "slept well"]
        tipRequests := 1, raised := false } ∧
    convHandlerStep envTipFail .ask_notes (some (PyVal.str "5")) 7 (.callback "skip_notes") =
      { state := .idle, userData := some (PyVal.str "5")
        replies := ["✅ Mood " ++ pyStr (PyVal.str "5") ++ " logged!",
          "What would you like to do next?"]
        persisted := [log_mood_to_dynamodb envTipFail.clock 7 (PyVal.str "5") ""]
        tipRequests := 1, raised := false }) :=
  ⟨rfl, rfl, by decide,
    C6_tip_failure_non_fatal envTipFail "RateLimitError" rfl rfl
      (PyVal.str "5") 7 "slept well" (by decide)⟩

/-- C7: for every nonempty user set and every pattern of per-user send
outcomes, the reminder fan-out reports HTTP 200 with the number of
successful sends in the body and does not raise; a send is dispatched to
every user regardless of the other users' outcomes, so one delivery failure
never prevents or alters the sends to other users. -/
theorem C7_fanout_reports_success_count
    (env : ReminderEnv) (h : get_users_with_reminders_enabled env ≠ []) :
    (async_lambda_handler env).1.statusCode = 200 ∧
    (async_lambda_handler env).1.body =
      "Sent " ++ toString ((get_users_with_reminders_enabled env).countP (send_reminder env))
        ++ " reminders" ∧
    (async_lambda_handler env).2 = get_users_with_reminders_enabled env := by
  have hne : (get_users_with_reminders_enabled env).isEmpty = false := by
    cases hu : get_users_with_reminders_enabled env
    · exact absurd hu h
    · rfl
  refine ⟨?_, ?_, ?_⟩ <;>
    simp [async_lambda_handler, hne, send_reminder, count_true_map]

theorem C7_witness :
    get_users_with_reminders_enabled remEnvABC ≠ [] ∧
    ((async_lambda_handler remEnvABC).1.statusCode = 200 ∧
      (async_lambda_handler remEnvABC).1.body =
        "Sent " ++ toString ((get_users_with_reminders_enabled remEnvABC).countP
          (send_reminder remEnvABC)) ++ " reminders" ∧
      (async_lambda_handler remEnvABC).2 = get_users_with_reminders_enabled remEnvABC) ∧
    (async_lambda_handler remEnvABC).1.body = "Sent 2 reminders" :=
  ⟨by decide, C7_fanout_reports_success_count remEnvABC (by decide), by decide⟩

/-- C8 counterexample: the claim says a failing scan is caught at the top
level and reported as a count of zero with an error status; in the code the
exception is swallowed inside `get_users_with_reminders_enabled`, so a scan
that fails immediately makes the job report HTTP 200 — the success status —
with body `No users found`, not an error status. -/
theorem C8_counterexample :
    remEnvScanBoom.scanFails = true ∧
    (async_lambda_handler remEnvScanBoom).1 = { statusCode := 200, body := "No users found" } ∧
    (async_lambda_handler remEnvScanBoom).1.statusCode ≠ 500 :=
  ⟨rfl, rfl, by decide⟩

/-- C8 amended: a scan failure is caught inside the user-collection step
(not at the handler's top level), which returns the users collected before
the failure; the invocation does not crash and always reports the success
status 200 — when the scan fails before yielding anything, with the body
`No users found` and no count. -/
theorem C8_scan_failure_swallowed_inside_collection
    (env : ReminderEnv) (hfail : env.scanFails = true) :
    (async_lambda_handler env).1.statusCode = 200 ∧
    (env.scanItems = [] →
      (async_lambda_handler env).1 = { statusCode := 200, body := "No users found" }) := by
  constructor
  · by_cases he : (get_users_with_reminders_enabled env).isEmpty <;>
      simp [async_lambda_handler, he]
  · intro hempty
    simp [async_lambda_handler, get_users_with_reminders_enabled, hempty]

theorem C8_witness :
    remEnvScanBoom.scanFails = true ∧
    ((async_lambda_handler remEnvScanBoom).1.statusCode = 200 ∧
      (remEnvScanBoom.scanItems = [] →
        (async_lambda_handler remEnvScanBoom).1 =
          { statusCode := 200, body := "No users found" })) :=
  ⟨rfl, C8_scan_failure_swallowed_inside_collection remEnvScanBoom rfl⟩

/-- C9 amended: invoking cancel from `ASK_MOOD` or `ASK_NOTES` returns the
machine to idle, persists nothing, issues no tip request, does not raise,
and emits the cancellation acknowledgment; the transient mood value in
`context.user_data`, however, is not deleted — the result carries the user
data through unchanged, to be overwritten only by the next mood
selection. -/
theorem C9_cancel_returns_idle_without_persisting
    (env : Env) (ud : Option PyVal) (uid : Int) (s : ConvState)
    (h : s = ConvState.ask_mood ∨ s = ConvState.ask_notes) :
    convHandlerStep env s ud uid (.message "/cancel") =
      { state := .idle, userData := ud
        replies := ["Conversation canceled. Goodbye!"]
        persisted := [], tipRequests := 0, raised := false } := by
  have hcmd : isCommand "/cancel" = true := rfl
  rcases h with h | h <;> subst h
  · simp [convHandlerStep, cancel]
  · simp [convHandlerStep, cancel, hcmd]

theorem C9_witness :
    (ConvState.ask_notes = ConvState.ask_mood ∨ ConvState.ask_notes = ConvState.ask_notes) ∧
    convHandlerStep envAllOk ConvState.ask_notes (some (PyVal.str "4")) 7
        (TgUpdate.message "/cancel") =
      { state := .idle, userData := some (PyVal.str "4")
        replies := ["Conversation canceled. Goodbye!"]
        persisted := [], tipRequests := 0, raised := false } :=
  ⟨Or.inr rfl,
    C9_cancel_returns_idle_without_persisting envAllOk (some (PyVal.str "4")) 7
      ConvState.ask_notes (Or.inr rfl)⟩

/-- C9 counterexample: the claim says the transient per-conversation mood
value is discarded on cancel; after a cancel from `ASK_NOTES` with mood "4"
in the user context, the context still holds mood "4" — `cancel` never
touches `context.user_data`. -/
theorem C9_counterexample :
    (convHandlerStep envAllOk .ask_notes (some (PyVal.str "4")) 7
      (.message "/cancel")).userData = some (PyVal.str "4") ∧
    (convHandlerStep envAllOk .ask_notes (some (PyVal.str "4")) 7
      (.message "/cancel")).userData ≠ none :=
  ⟨rfl, by decide⟩

/-- C10: a limit of 0 or None is treated as no limit at all — the Limit key
is omitted from every page request, the two runs are identical, and the
pages are unbounded (the whole result set is yielded) rather than empty; the
same falsy-means-absent rule holds for the empty filter expression,
projection expression, attribute-values dict and index name. -/
theorem C10_falsy_optional_params_omitted {α : Type} (data : List α)
    (qp : AsyncDynamoDBClient.QueryParams) (sp : AsyncDynamoDBClient.ScanParams) :
    (∀ e, AsyncDynamoDBClient.buildQueryArgs { qp with limit := some 0 } e =
      AsyncDynamoDBClient.buildQueryArgs { qp with limit := none } e) ∧
    (∀ e, AsyncDynamoDBClient.buildQueryArgs { qp with filter_expression := some "" } e =
      AsyncDynamoDBClient.buildQueryArgs { qp with filter_expression := none } e) ∧
    (∀ e, AsyncDynamoDBClient.buildQueryArgs { qp with index_name := some "" } e =
      AsyncDynamoDBClient.buildQueryArgs { qp with index_name := none } e) ∧
    AsyncDynamoDBClient.query data { qp with limit := some 0 } =
      AsyncDynamoDBClient.query data { qp with limit := none } ∧
    (∀ a ∈ (AsyncDynamoDBClient.query data { qp with limit := some 0 }).1,
      a.Limit = none) ∧
    (AsyncDynamoDBClient.query data { qp with limit := some 0 }).2 = data ∧
    (∀ e, AsyncDynamoDBClient.buildScanArgs { sp with limit := some 0 } e =
      AsyncDynamoDBClient.buildScanArgs { sp with limit := none } e) ∧
    (∀ e, AsyncDynamoDBClient.buildScanArgs { sp with filter_expression := some "" } e =
      AsyncDynamoDBClient.buildScanArgs { sp with filter_expression := none } e) ∧
    (∀ e, AsyncDynamoDBClient.buildScanArgs { sp with projection_expression := some "" } e =
      AsyncDynamoDBClient.buildScanArgs { sp with projection_expression := none } e) ∧
    (∀ e, AsyncDynamoDBClient.buildScanArgs { sp with expression_attribute_values := some [] } e =
      AsyncDynamoDBClient.buildScanArgs { sp with expression_attribute_values := none } e) ∧
    (∀ e, AsyncDynamoDBClient.buildScanArgs { sp with index_name := some "" } e =
      AsyncDynamoDBClient.buildScanArgs { sp with index_name := none } e) ∧
    AsyncDynamoDBClient.scan data { sp with limit := some 0 } =
      AsyncDynamoDBClient.scan data { sp with limit := none } ∧
    (∀ a ∈ (AsyncDynamoDBClient.scan data { sp with limit := some 0 }).1,
      a.Limit = none) ∧
    (AsyncDynamoDBClient.scan data { sp with limit := some 0 }).2 = data := by
  refine ⟨fun e => rfl, fun e => rfl, fun e => rfl,
    AsyncDynamoDBClient.query_congr data _ _ (fun e => rfl), ?_,
    AsyncDynamoDBClient.query_items data _,
    fun e => rfl, fun e => rfl, fun e => rfl, fun e => rfl, fun e => rfl,
    AsyncDynamoDBClient.scan_congr data _ _ (fun e => rfl), ?_,
    AsyncDynamoDBClient.scan_items data _⟩
  · intro a ha
    have hl := AsyncDynamoDBClient.query_trace_limit data _ a ha
    simpa [natTruthy] using hl
  · intro a ha
    have hl := AsyncDynamoDBClient.scan_trace_limit data _ a ha
    simpa [natTruthy] using hl
